import Mathlib

/-! Verification of the cart/order core of `src/GUI.py`.

Shallow embedding of the storefront application's cart and order subsystem.
Python `Decimal` values are modelled as exact rationals (`ℚ`): every Decimal
occurring in the program has far fewer significant digits than the default
context precision of 28 after each operation that matters for a 2-decimal
quantize, so exact rational arithmetic coincides with `decimal` arithmetic on
all values reached here.  Python `float`s are modelled by `pyFloat`, the exact
rational value of the nearest IEEE-754 binary64 number.  Python `int`s are
`ℤ`.  The Tk widget state that feeds each callback (spinbox values, tree
selection, entry fields) is passed as explicit arguments.
-/

set_option autoImplicit false
set_option maxRecDepth 40000

unseal Rat.mul Rat.add Rat.sub Rat.inv Rat.ofScientific

namespace Store

/-- Rounding `ROUND_HALF_UP` to an integer: nearest integer, ties away from zero
(the rounding mode of Python's `decimal` module used throughout `GUI.py`). -/
def roundHalfUpZ (x : ℚ) : ℤ :=
  if x < 0 then -⌊-x + 1 / 2⌋ else ⌊x + 1 / 2⌋

/-- Quantization `Decimal.quantize(Decimal("0.01"), rounding=ROUND_HALF_UP)`:
round to the nearest multiple of 1/100, ties away from zero. -/
def q2 (x : ℚ) : ℚ := (roundHalfUpZ (x * 100) : ℚ) / 100

/-- Round to the nearest integer, ties to even (IEEE-754 default rounding,
used when a numeric literal or a `Decimal` is converted to a `float`). -/
def roundHalfEven (x : ℚ) : ℤ :=
  if x - ⌊x⌋ < 1 / 2 then ⌊x⌋
  else if 1 / 2 < x - ⌊x⌋ then ⌊x⌋ + 1
  else if ⌊x⌋ % 2 = 0 then ⌊x⌋ else ⌊x⌋ + 1

/-- Floor of log₂ of a positive rational, by scaling into `[1, 2)`.
The fuel bounds the exponent magnitude; 400 is far beyond any value
occurring in this program. -/
def floorLog2Aux : ℕ → ℚ → ℤ
  | 0, _ => 0
  | fuel + 1, q =>
    if q < 1 then floorLog2Aux fuel (2 * q) - 1
    else if 2 ≤ q then floorLog2Aux fuel (q / 2) + 1
    else 0

def floorLog2 (q : ℚ) : ℤ := floorLog2Aux 400 q

/-- Python `float(x)`: the IEEE-754 binary64 value nearest to `x` (ties to
even), as an exact rational.  Overflow and subnormals are irrelevant for the
magnitudes reached by this program and are not modelled. -/
def pyFloat (x : ℚ) : ℚ :=
  if x = 0 then 0
  else
    let a := |x|
    let e := floorLog2 a
    let m := roundHalfEven (a * 2 ^ (52 - e))
    (if x < 0 then (-1 : ℚ) else 1) * (m : ℚ) * 2 ^ (e - 52)

/-- Class `Product` (`GUI.py` line 62): `self.price = Decimal(price)` where each
seed price is a Python float literal, so the stored price is the exact
rational value of the IEEE-754 double nearest that literal. -/
structure Product where
  id : ℤ
  name : String
  category : String
  price : ℚ
  stock : ℤ
  desc : String
deriving DecidableEq

/-- One row of the `orders` table (`init_db`, line 36).  The `total` column
is `REAL`: it holds the binary64 value passed by `save_order` exactly. -/
structure OrderRow where
  customer_name : String
  email : String
  address : String
  total : ℚ
  details : String
deriving DecidableEq

/-- The mutable state of `StoreApp` together with the orders table:
`self.products`, `self.cart` (a dict `product.id -> CartItem`, insertion
ordered), and the persisted order rows.  A cart entry stores the product id
and the quantity; `CartItem.product` is a shared reference into the catalog,
so an item's price and current stock are read through `State.products`. -/
structure State where
  products : List Product
  cart : List (ℤ × ℤ)
  orders : List OrderRow
deriving DecidableEq

/-- First entry of the cart dict with the given key, if any. -/
def lookupQty : List (ℤ × ℤ) → ℤ → Option ℤ
  | [], _ => none
  | e :: rest, pid => if e.1 = pid then some e.2 else lookupQty rest pid

/-- Overwrite the value stored at a key, keeping the dict's insertion order
(Python dict update semantics); unchanged if the key is absent. -/
def setQty : List (ℤ × ℤ) → ℤ → ℤ → List (ℤ × ℤ)
  | [], _, _ => []
  | e :: rest, pid, q => if e.1 = pid then (pid, q) :: rest else e :: setQty rest pid q

/-- Removal of the (unique) entry with the given key from the cart dict.
This is only the successful branch of `del d[k]`: `remove_item` checks
presence first and models the `KeyError` of an absent key separately. -/
def eraseKey : List (ℤ × ℤ) → ℤ → List (ℤ × ℤ)
  | [], _ => []
  | e :: rest, pid => if e.1 = pid then rest else e :: eraseKey rest pid

/-- First product of the catalog with the given id (ids are unique in the
seed data, so this is the object a `CartItem` references). -/
def findProduct : List Product → ℤ → Option Product
  | [], _ => none
  | p :: rest, pid => if p.id = pid then some p else findProduct rest pid

def priceOf (products : List Product) (pid : ℤ) : ℚ :=
  match findProduct products pid with
  | some p => p.price
  | none => 0

def nameOf (products : List Product) (pid : ℤ) : String :=
  match findProduct products pid with
  | some p => p.name
  | none => ""

/-- Property `CartItem.line_total` (line 76):
`(self.product.price * self.qty).quantize(Decimal("0.01"), ROUND_HALF_UP)`. -/
def line_total (price qty : ℚ) : ℚ := q2 (price * qty)

/-- Line total of one cart entry, reading the price through the shared
product reference. -/
def line_total_of (s : State) (e : ℤ × ℤ) : ℚ :=
  line_total (priceOf s.products e.1) (e.2 : ℚ)

/-- The sum `subtotal = sum(item.line_total for item in self.cart.values())`
(lines 382 and 414). -/
def subtotal (s : State) : ℚ := (s.cart.map (line_total_of s)).sum

/-- Observable result of a widget callback: `ok` when the state mutates (or
an order is placed), otherwise which messagebox / early-return branch ran. -/
inductive Outcome where
  | ok
  | silentReturn
  | stockWarning
  | selectInfo
  | emptyCartInfo
  | missingFields
  | keyError
  | persistenceError
deriving DecidableEq

/-- Callback `StoreApp.add_to_cart` (line 255).  `qty = int(qty)` is already an `ℤ`;
`qty <= 0` is a bare `return` (no messagebox); the two stock checks each show
a warning and leave everything unchanged. -/
def add_to_cart (s : State) (product : Product) (qty : ℤ) : State × Outcome :=
  if qty ≤ 0 then (s, Outcome.silentReturn)
  else if product.stock < qty then (s, Outcome.stockWarning)
  else
    match lookupQty s.cart product.id with
    | some oldq =>
      if oldq + qty > product.stock then (s, Outcome.stockWarning)
      else ({ s with cart := setQty s.cart product.id (oldq + qty) }, Outcome.ok)
    | none => ({ s with cart := s.cart ++ [(product.id, qty)] }, Outcome.ok)

/-- Callback `update_qty` (line 346).  `sel` is the tree selection (`none`: info popup,
no change).  `self.cart[pid].product` is the cart item's shared product
reference; a selected row always names a cart entry backed by a catalog
product (tree rows mirror the cart), the `keyError` branch is unreachable in
the GUI.  Note the code checks only `newq > prod.stock`: there is no check
that `newq` is positive. -/
def update_qty (s : State) (sel : Option ℤ) (newq : ℤ) : State × Outcome :=
  match sel with
  | none => (s, Outcome.selectInfo)
  | some pid =>
    match lookupQty s.cart pid, findProduct s.products pid with
    | some _, some prod =>
      if newq > prod.stock then (s, Outcome.stockWarning)
      else ({ s with cart := setQty s.cart pid newq }, Outcome.ok)
    | _, _ => (s, Outcome.keyError)

/-- Callback `remove_item` (line 362).  `sel = none`: info popup, no change,
no error.  Otherwise `del self.cart[pid]`: if the selected id has an entry it
is deleted; if it has none (reachable through a stale selection when a second
cart window is open), `del` raises `KeyError` — the exception propagates out
of the Tk callback and nothing is mutated. -/
def remove_item (s : State) (sel : Option ℤ) : State × Outcome :=
  match sel with
  | none => (s, Outcome.selectInfo)
  | some pid =>
    match lookupQty s.cart pid with
    | some _ => ({ s with cart := eraseKey s.cart pid }, Outcome.ok)
    | none => (s, Outcome.keyError)

/-- Python `str.strip()` whitespace test (ASCII; no other Unicode whitespace
occurs in this program). -/
def pySpace (c : Char) : Bool :=
  c = ' ' || c = '\t' || c = '\n' || c = '\r' || c = '\x0b' || c = '\x0c'

/-- Python `str.strip()`: drop leading and trailing whitespace. -/
def pyStrip (t : String) : String :=
  ⟨((t.data.dropWhile pySpace).reverse.dropWhile pySpace).reverse⟩

/-- Decimal string of a 2-decimal value given in cents (helper for
`fmt_price`). -/
def centsRepr (k : ℤ) : String :=
  (if k < 0 then "-" else "") ++ toString (k.natAbs / 100) ++ "." ++
    (if k.natAbs % 100 < 10 then "0" else "") ++ toString (k.natAbs % 100)

/-- Formatter `fmt_price` (line 29):
`f"${Decimal(p).quantize(Decimal('0.01'), rounding=ROUND_HALF_UP)}"`. -/
def fmt_price (p : ℚ) : String := "$" ++ centsRepr (roundHalfUpZ (p * 100))

def newlineStr : String := "\n"

/-- One line of the order `details` (line 427):
`f"{item.qty}x {item.product.name} @ {fmt_price(price)} = {fmt_price(line_total)}"`. -/
def detail_line (s : State) (e : ℤ × ℤ) : String :=
  toString e.2 ++ "x " ++ nameOf s.products e.1 ++ " @ " ++
    fmt_price (priceOf s.products e.1) ++ " = " ++ fmt_price (line_total_of s e)

/-- The string `details = "\n".join(details_lines)` (line 428). -/
def order_details (s : State) : String :=
  String.intercalate newlineStr (s.cart.map (detail_line s))

/-- Function `save_order` (line 53): INSERT one row into `orders`.  The `total`
argument is already a Python float (the caller passes `float(subtotal)`), and
`float` of a float is the identity, so the row stores it unchanged. -/
def save_order (s : State) (customer_name email address : String)
    (total : ℚ) (details : String) : State :=
  { s with orders := s.orders ++ [⟨customer_name, email, address, total, details⟩] }

def decStock (qty : ℤ) (p : Product) : Product := { p with stock := p.stock - qty }

/-- Update `item.product.stock -= item.qty`: `item.product` is the unique catalog
object with that id, so the first product with a matching id is updated in
place. -/
def updateFirst : List Product → ℤ → (Product → Product) → List Product
  | [], _, _ => []
  | p :: rest, pid, f => if p.id = pid then f p :: rest else p :: updateFirst rest pid f

/-- The loop `for item in list(self.cart.values()): item.product.stock -= item.qty`
(line 432). -/
def dec_stocks (products : List Product) (cart : List (ℤ × ℤ)) : List Product :=
  cart.foldl (fun ps e => updateFirst ps e.1 (decStock e.2)) products

/-- Callback `place_order` (line 417), parametrised by whether the SQLite write
succeeds.  On failure `save_order` raises, the exception propagates out of
the Tk callback, and nothing after the `save_order` call runs — in
particular no stock decrement and no cart clearing. -/
def place_order (s : State) (sub : ℚ) (name email address : String)
    (persistOk : Bool) : State × Outcome :=
  let name := pyStrip name
  let email := pyStrip email
  let address := pyStrip address
  if name = "" ∨ email = "" ∨ address = "" then (s, Outcome.missingFields)
  else
    let details := order_details s
    if persistOk then
      let s1 := save_order s name email address (pyFloat sub) details
      ({ s1 with products := dec_stocks s1.products s1.cart, cart := [] }, Outcome.ok)
    else (s, Outcome.persistenceError)

/-- Callback `open_checkout_window` (line 388): an info popup and no window when the
cart is empty; otherwise the window captures `subtotal` (line 414). -/
def open_checkout_window (s : State) : Option ℚ :=
  if s.cart = [] then none else some (subtotal s)

/-- Opening the checkout window and pressing Place Order.  The spec's
concurrency model (§5) is one operation at a time, so the captured subtotal
is the ledger subtotal at the time of the call. -/
def checkout (s : State) (name email address : String) (persistOk : Bool) :
    State × Outcome :=
  match open_checkout_window s with
  | none => (s, Outcome.emptyCartInfo)
  | some sub => place_order s sub name email address persistOk

/-- Seed product 1 (line 20); the price is the double denoted by the float
literal `19.99`. -/
def product1 : Product :=
  ⟨1, "Classic White T-Shirt", "Clothing", pyFloat (1999 / 100), 25,
    "100% cotton, comfortable everyday tee."⟩

def product2 : Product :=
  ⟨2, "Wireless Headphones", "Electronics", pyFloat (8950 / 100), 10,
    "Over-ear, 20hr battery life, noise cancellation."⟩

def product3 : Product :=
  ⟨3, "Stainless Water Bottle 1L", "Home", pyFloat 24, 40,
    "Keeps drinks hot or cold for hours."⟩

def product4 : Product :=
  ⟨4, "Running Shoes", "Footwear", pyFloat 120, 8,
    "Lightweight, breathable, great for daily runs."⟩

def product5 : Product :=
  ⟨5, "Bluetooth Speaker", "Electronics", pyFloat (4525 / 100), 15,
    "Portable, splash resistant, rich bass."⟩

def product6 : Product :=
  ⟨6, "Canvas Tote Bag", "Accessories", pyFloat (1275 / 100), 50,
    "Durable bag for shopping and everyday use."⟩

/-- Seed list `SAMPLE_PRODUCTS` (line 19). -/
def SAMPLE_PRODUCTS : List Product :=
  [product1, product2, product3, product4, product5, product6]

/-- The process-start state: seeded catalog, empty cart, no orders. -/
def initState : State := ⟨SAMPLE_PRODUCTS, [], []⟩

/-- A reachable state with three T-shirts in the cart
(`add_to_cart(product1, 3)` from the start state). -/
def cState1 : State := ⟨SAMPLE_PRODUCTS, [(1, 3)], []⟩

/-- A reachable state with three T-shirts and one speaker in the cart. -/
def cState2 : State := ⟨SAMPLE_PRODUCTS, [(1, 3), (5, 1)], []⟩

/-- Customer fields used as concrete checkout inputs. -/
def custName : String := "Ada Lovelace"

def custEmail : String := "ada@example.com"

def custAddr : String := "1 Main Street"

/-- A whitespace-only checkout field (blank after trimming). -/
def blankStr : String := "   "

/-- Stock of the catalog product with the given id, if any. -/
def findStock (products : List Product) (pid : ℤ) : Option ℤ :=
  (findProduct products pid).map Product.stock

/-- One cart entry satisfies the ledger invariant: positive quantity, not
above the referenced product's current stock. -/
def entryOKb (products : List Product) (e : ℤ × ℤ) : Bool :=
  decide (0 < e.2) &&
    (match findProduct products e.1 with
     | some p => decide (e.2 ≤ p.stock)
     | none => false)

/-- The Cart Ledger invariant (§3 of the spec): at most one entry per product
id, and every entry has a positive quantity not exceeding its referenced
product's current stock. -/
def ledgerInv (s : State) : Prop :=
  (s.cart.map Prod.fst).Nodup ∧ ∀ e ∈ s.cart, entryOKb s.products e = true

instance (s : State) : Decidable (ledgerInv s) := by
  unfold ledgerInv; infer_instance

/-! ### Lemmas about the cart dict operations -/

theorem lookupQty_eq_none_iff (cart : List (ℤ × ℤ)) (pid : ℤ) :
    lookupQty cart pid = none ↔ pid ∉ cart.map Prod.fst := by
  induction cart with
  | nil => simp [lookupQty]
  | cons e rest ih =>
    by_cases h : e.1 = pid
    · simp [lookupQty, h]
    · rw [lookupQty, if_neg h, ih, List.map_cons]
      simp only [List.mem_cons]
      constructor
      · intro hn hor
        rcases hor with h1 | h1
        · exact h h1.symm
        · exact hn h1
      · intro hn h1
        exact hn (Or.inr h1)

theorem lookupQty_some_mem (cart : List (ℤ × ℤ)) (pid q : ℤ)
    (h : lookupQty cart pid = some q) : (pid, q) ∈ cart := by
  induction cart with
  | nil => simp [lookupQty] at h
  | cons e rest ih =>
    by_cases he : e.1 = pid
    · simp only [lookupQty, if_pos he] at h
      cases h
      rw [← he]
      exact List.mem_cons_self _ _
    · simp only [lookupQty, if_neg he] at h
      exact List.mem_cons_of_mem _ (ih h)

theorem setQty_map_fst (cart : List (ℤ × ℤ)) (pid q : ℤ) :
    (setQty cart pid q).map Prod.fst = cart.map Prod.fst := by
  induction cart with
  | nil => rfl
  | cons e rest ih =>
    by_cases h : e.1 = pid
    · simp [setQty, h]
    · simp [setQty, h, ih]

theorem mem_setQty (cart : List (ℤ × ℤ)) (pid q : ℤ) (e : ℤ × ℤ)
    (h : e ∈ setQty cart pid q) : e ∈ cart ∨ e = (pid, q) := by
  induction cart with
  | nil => simp [setQty] at h
  | cons a rest ih =>
    by_cases ha : a.1 = pid
    · simp only [setQty, if_pos ha] at h
      rcases List.mem_cons.1 h with h | h
      · right; exact h
      · left; exact List.mem_cons_of_mem _ h
    · simp only [setQty, if_neg ha] at h
      rcases List.mem_cons.1 h with h | h
      · left; simp [h]
      · rcases ih h with h2 | h2
        · left; exact List.mem_cons_of_mem _ h2
        · right; exact h2

theorem lookupQty_setQty_self (cart : List (ℤ × ℤ)) (pid q v : ℤ)
    (h : lookupQty cart pid = some v) :
    lookupQty (setQty cart pid q) pid = some q := by
  induction cart with
  | nil => simp [lookupQty] at h
  | cons e rest ih =>
    by_cases he : e.1 = pid
    · simp [setQty, he, lookupQty]
    · simp only [lookupQty, if_neg he] at h
      simp only [setQty, if_neg he, lookupQty, if_neg he]
      exact ih h

theorem lookupQty_setQty_ne (cart : List (ℤ × ℤ)) (pid q pid' : ℤ)
    (h : pid' ≠ pid) :
    lookupQty (setQty cart pid q) pid' = lookupQty cart pid' := by
  induction cart with
  | nil => rfl
  | cons e rest ih =>
    by_cases he : e.1 = pid
    · have h1 : ¬ (pid = pid') := fun hx => h hx.symm
      have h2 : ¬ (e.1 = pid') := he ▸ h1
      rw [setQty, if_pos he, lookupQty, if_neg h1, lookupQty, if_neg h2]
    · by_cases he' : e.1 = pid'
      · rw [setQty, if_neg he, lookupQty, if_pos he', lookupQty, if_pos he']
      · rw [setQty, if_neg he, lookupQty, if_neg he', lookupQty, if_neg he', ih]

theorem eraseKey_sublist (cart : List (ℤ × ℤ)) (pid : ℤ) :
    (eraseKey cart pid).Sublist cart := by
  induction cart with
  | nil => exact List.Sublist.refl _
  | cons e rest ih =>
    by_cases h : e.1 = pid
    · rw [eraseKey, if_pos h]
      exact List.sublist_cons_self e rest
    · rw [eraseKey, if_neg h]
      exact ih.cons₂ e

theorem eraseKey_of_lookup_none (cart : List (ℤ × ℤ)) (pid : ℤ)
    (h : lookupQty cart pid = none) : eraseKey cart pid = cart := by
  induction cart with
  | nil => rfl
  | cons e rest ih =>
    by_cases he : e.1 = pid
    · simp [lookupQty, he] at h
    · simp only [lookupQty, if_neg he] at h
      simp [eraseKey, he, ih h]

theorem lookupQty_eraseKey_self (cart : List (ℤ × ℤ)) (pid : ℤ)
    (hnd : (cart.map Prod.fst).Nodup) :
    lookupQty (eraseKey cart pid) pid = none := by
  induction cart with
  | nil => rfl
  | cons e rest ih =>
    rw [List.map_cons, List.nodup_cons] at hnd
    by_cases he : e.1 = pid
    · rw [eraseKey, if_pos he, lookupQty_eq_none_iff]
      rw [he] at hnd
      exact hnd.1
    · rw [eraseKey, if_neg he, lookupQty, if_neg he]
      exact ih hnd.2

theorem lookupQty_eraseKey_ne (cart : List (ℤ × ℤ)) (pid pid' : ℤ)
    (h : pid' ≠ pid) :
    lookupQty (eraseKey cart pid) pid' = lookupQty cart pid' := by
  induction cart with
  | nil => rfl
  | cons e rest ih =>
    by_cases he : e.1 = pid
    · have h2 : ¬ (e.1 = pid') := fun hx => h (hx.symm.trans he)
      rw [eraseKey, if_pos he, lookupQty, if_neg h2]
    · by_cases he' : e.1 = pid'
      · rw [eraseKey, if_neg he, lookupQty, if_pos he', lookupQty, if_pos he']
      · rw [eraseKey, if_neg he, lookupQty, if_neg he', lookupQty, if_neg he', ih]

theorem remove_item_present (s : State) (pid q : ℤ)
    (h : lookupQty s.cart pid = some q) :
    remove_item s (some pid) = ({ s with cart := eraseKey s.cart pid }, Outcome.ok) := by
  simp only [remove_item, h]

theorem remove_item_absent (s : State) (pid : ℤ)
    (h : lookupQty s.cart pid = none) :
    remove_item s (some pid) = (s, Outcome.keyError) := by
  simp only [remove_item, h]

/-! ### Lemmas about catalog updates -/

theorem decStock_id (q : ℤ) (p : Product) : (decStock q p).id = p.id := rfl

theorem findProduct_updateFirst_self (ps : List Product) (pid : ℤ)
    (f : Product → Product) (hid : ∀ p, (f p).id = p.id) :
    findProduct (updateFirst ps pid f) pid = (findProduct ps pid).map f := by
  induction ps with
  | nil => rfl
  | cons p rest ih =>
    by_cases h : p.id = pid
    · rw [updateFirst, if_pos h, findProduct, if_pos ((hid p).trans h),
        findProduct, if_pos h]
      rfl
    · rw [updateFirst, if_neg h, findProduct, if_neg h, findProduct, if_neg h, ih]

theorem findProduct_updateFirst_ne (ps : List Product) (pid pid' : ℤ)
    (f : Product → Product) (hid : ∀ p, (f p).id = p.id) (h : pid' ≠ pid) :
    findProduct (updateFirst ps pid f) pid' = findProduct ps pid' := by
  induction ps with
  | nil => rfl
  | cons p rest ih =>
    by_cases hp : p.id = pid
    · have h1 : ¬ ((f p).id = pid') := fun hx => h (((hid p).symm.trans hx).symm.trans hp)
      have h2 : ¬ (p.id = pid') := fun hx => h (hx.symm.trans hp)
      rw [updateFirst, if_pos hp, findProduct, if_neg h1, findProduct, if_neg h2]
    · by_cases hp' : p.id = pid'
      · rw [updateFirst, if_neg hp, findProduct, if_pos hp', findProduct, if_pos hp']
      · rw [updateFirst, if_neg hp, findProduct, if_neg hp', findProduct, if_neg hp', ih]

theorem dec_stocks_cons (ps : List Product) (e : ℤ × ℤ) (rest : List (ℤ × ℤ)) :
    dec_stocks ps (e :: rest) = dec_stocks (updateFirst ps e.1 (decStock e.2)) rest := rfl

theorem dec_stocks_lookup_none (cart : List (ℤ × ℤ)) :
    ∀ (ps : List Product) (pid : ℤ), lookupQty cart pid = none →
      findProduct (dec_stocks ps cart) pid = findProduct ps pid := by
  induction cart with
  | nil => intro ps pid _; rfl
  | cons e rest ih =>
    intro ps pid h
    by_cases he : e.1 = pid
    · rw [lookupQty, if_pos he] at h
      cases h
    · rw [lookupQty, if_neg he] at h
      rw [dec_stocks_cons, ih _ _ h,
        findProduct_updateFirst_ne _ _ _ _ (decStock_id e.2) (fun hx => he hx.symm)]

theorem dec_stocks_lookup_some (cart : List (ℤ × ℤ)) :
    ∀ (ps : List Product) (pid q : ℤ), (cart.map Prod.fst).Nodup →
      lookupQty cart pid = some q →
      findProduct (dec_stocks ps cart) pid = (findProduct ps pid).map (decStock q) := by
  induction cart with
  | nil => intro ps pid q _ h; cases h
  | cons e rest ih =>
    intro ps pid q hnd h
    rw [List.map_cons, List.nodup_cons] at hnd
    by_cases he : e.1 = pid
    · rw [lookupQty, if_pos he] at h
      cases h
      have hnone : lookupQty rest pid = none := by
        rw [lookupQty_eq_none_iff]
        rw [he] at hnd
        exact hnd.1
      rw [dec_stocks_cons, dec_stocks_lookup_none rest _ _ hnone, ← he,
        findProduct_updateFirst_self _ _ _ (decStock_id e.2)]
    · rw [lookupQty, if_neg he] at h
      rw [dec_stocks_cons, ih _ _ _ hnd.2 h,
        findProduct_updateFirst_ne _ _ _ _ (decStock_id e.2) (fun hx => he hx.symm)]

/-! ### Lemmas about the monetary rounding -/

theorem roundHalfUpZ_intCast (k : ℤ) : roundHalfUpZ (k : ℚ) = k := by
  have h0 : ⌊(1 : ℚ) / 2⌋ = 0 := by norm_num
  unfold roundHalfUpZ
  split_ifs with h
  · have hcast : -(k : ℚ) + 1 / 2 = ((-k : ℤ) : ℚ) + 1 / 2 := by push_cast; ring
    rw [hcast, Int.floor_int_add, h0, add_zero, neg_neg]
  · rw [Int.floor_int_add, h0, add_zero]

theorem q2_int_div_100 (k : ℤ) : q2 ((k : ℚ) / 100) = (k : ℚ) / 100 := by
  unfold q2
  rw [div_mul_cancel₀ _ (by norm_num : (100 : ℚ) ≠ 0), roundHalfUpZ_intCast]

theorem q2_is_cents (x : ℚ) : ∃ k : ℤ, q2 x = (k : ℚ) / 100 :=
  ⟨roundHalfUpZ (x * 100), rfl⟩

theorem sum_cents (l : List ℚ) (h : ∀ x ∈ l, ∃ k : ℤ, x = (k : ℚ) / 100) :
    ∃ k : ℤ, l.sum = (k : ℚ) / 100 := by
  induction l with
  | nil => exact ⟨0, by simp⟩
  | cons a rest ih =>
    obtain ⟨ka, hka⟩ := h a (List.mem_cons_self a rest)
    obtain ⟨kr, hkr⟩ := ih fun x hx => h x (List.mem_cons_of_mem _ hx)
    refine ⟨ka + kr, ?_⟩
    rw [List.sum_cons, hka, hkr]
    push_cast
    ring

theorem subtotal_cents (s : State) : ∃ k : ℤ, subtotal s = (k : ℚ) / 100 := by
  refine sum_cents _ fun x hx => ?_
  obtain ⟨e, _, rfl⟩ := List.mem_map.1 hx
  exact q2_is_cents _

theorem q2_subtotal (s : State) : q2 (subtotal s) = subtotal s := by
  obtain ⟨k, hk⟩ := subtotal_cents s
  rw [hk, q2_int_div_100]

/-! ### Unfolding lemmas for the checkout flow -/

theorem checkout_empty_cart (s : State) (n em ad : String) (ok : Bool)
    (h : s.cart = []) : checkout s n em ad ok = (s, Outcome.emptyCartInfo) := by
  unfold checkout open_checkout_window
  rw [if_pos h]

theorem checkout_nonempty (s : State) (n em ad : String) (ok : Bool)
    (h : s.cart ≠ []) :
    checkout s n em ad ok = place_order s (subtotal s) n em ad ok := by
  unfold checkout open_checkout_window
  rw [if_neg h]

theorem place_order_blank (s : State) (sub : ℚ) (n em ad : String) (ok : Bool)
    (h : pyStrip n = "" ∨ pyStrip em = "" ∨ pyStrip ad = "") :
    place_order s sub n em ad ok = (s, Outcome.missingFields) := by
  unfold place_order
  rw [if_pos h]

theorem place_order_ok (s : State) (sub : ℚ) (n em ad : String)
    (h : ¬ (pyStrip n = "" ∨ pyStrip em = "" ∨ pyStrip ad = "")) :
    place_order s sub n em ad true
      = (⟨dec_stocks s.products s.cart, [],
          s.orders ++ [⟨pyStrip n, pyStrip em, pyStrip ad, pyFloat sub, order_details s⟩]⟩,
         Outcome.ok) := by
  unfold place_order save_order
  rw [if_neg h]
  rfl

theorem place_order_fail (s : State) (sub : ℚ) (n em ad : String)
    (h : ¬ (pyStrip n = "" ∨ pyStrip em = "" ∨ pyStrip ad = "")) :
    place_order s sub n em ad false = (s, Outcome.persistenceError) := by
  unfold place_order
  rw [if_neg h]
  rfl

/-! ### The claims -/

/-- C2: if the persistence write fails during checkout, the entire state —
Cart Ledger, every product's stock, and the orders table — is exactly as it
was before the attempt: the persist step runs strictly before any stock
decrement or ledger clearing, and its failure aborts the sequence with no
partial effects (when the cart is non-empty and the fields pass validation,
the failure is surfaced as the persistence error). -/
theorem c2_persist_failure_no_effects :
    ∀ (s : State) (n em ad : String),
      (checkout s n em ad false).1 = s ∧
      (s.cart ≠ [] → ¬ (pyStrip n = "" ∨ pyStrip em = "" ∨ pyStrip ad = "") →
        (checkout s n em ad false).2 = Outcome.persistenceError) := by
  intro s n em ad
  constructor
  · by_cases hc : s.cart = []
    · rw [checkout_empty_cart s n em ad false hc]
    · rw [checkout_nonempty s n em ad false hc]
      by_cases hb : pyStrip n = "" ∨ pyStrip em = "" ∨ pyStrip ad = ""
      · rw [place_order_blank s _ n em ad false hb]
      · rw [place_order_fail s _ n em ad hb]
  · intro hc hb
    rw [checkout_nonempty s n em ad false hc, place_order_fail s _ n em ad hb]

/-- C2 witness: a concrete failing persistence write on a cart holding three
T-shirts leaves the state untouched and surfaces the persistence error. -/
theorem c2_witness :
    (cState1.cart ≠ [] ∧
      ¬ (pyStrip custName = "" ∨ pyStrip custEmail = "" ∨ pyStrip custAddr = "")) ∧
    (checkout cState1 custName custEmail custAddr false).1 = cState1 ∧
    (checkout cState1 custName custEmail custAddr false).2 = Outcome.persistenceError :=
  ⟨by decide,
   (c2_persist_failure_no_effects cState1 custName custEmail custAddr).1,
   (c2_persist_failure_no_effects cState1 custName custEmail custAddr).2
     (by decide) (by decide)⟩

/-- C5: a cart item's line total is the unit price times the quantity,
quantized half-up to 2 decimal digits in (exact) decimal arithmetic; the
catalog price for the T-shirt is `Decimal(19.99)` — the binary64 image of
the literal — and its line total at quantity 3 is exactly $59.97. -/
theorem c5_line_total_exact :
    (∀ price qty : ℚ, line_total price qty = q2 (price * qty)) ∧
    product1.price = pyFloat (1999 / 100) ∧
    line_total product1.price 3 = 5997 / 100 ∧
    line_total_of cState1 (1, 3) = 5997 / 100 :=
  ⟨fun _ _ => rfl, rfl, by decide, by decide⟩

/-- C6: the subtotal is the plain sum of the already-rounded line totals,
and that sum is a fixed point of the 2-decimal half-up quantization (so
re-quantizing after summation changes nothing); for the cart $19.99×3 +
$45.25×1 the subtotal is exactly $105.22. -/
theorem c6_subtotal_requantize :
    (∀ s : State, subtotal s = (s.cart.map (line_total_of s)).sum) ∧
    (∀ s : State, q2 (subtotal s) = subtotal s) ∧
    subtotal cState2 = 10522 / 100 :=
  ⟨fun _ => rfl, q2_subtotal, by decide⟩

/-- C8 (amended): removeItem with no selected entry is a no-op that raises
no error; with a selected id whose entry is present it reports success and
deletes exactly that entry (any other id's entry is untouched); but on a
selected id with no entry — reachable through a stale selection when a
second cart window is open — `del self.cart[pid]` raises KeyError: the
ledger is unchanged, yet an error is raised rather than a silent no-op. -/
theorem c8_remove_item :
    (∀ s : State, remove_item s none = (s, Outcome.selectInfo)) ∧
    (∀ (s : State) (pid q : ℤ), lookupQty s.cart pid = some q →
      (remove_item s (some pid)).2 = Outcome.ok) ∧
    (∀ (s : State) (pid q : ℤ), lookupQty s.cart pid = some q →
      (s.cart.map Prod.fst).Nodup →
      lookupQty (remove_item s (some pid)).1.cart pid = none) ∧
    (∀ (s : State) (pid q pid' : ℤ), lookupQty s.cart pid = some q →
      pid' ≠ pid →
      lookupQty (remove_item s (some pid)).1.cart pid' = lookupQty s.cart pid') ∧
    (∀ (s : State) (pid : ℤ), lookupQty s.cart pid = none →
      remove_item s (some pid) = (s, Outcome.keyError)) := by
  refine ⟨fun s => rfl, ?_, ?_, ?_, ?_⟩
  · intro s pid q h
    rw [remove_item_present s pid q h]
  · intro s pid q h hnd
    rw [remove_item_present s pid q h]
    exact lookupQty_eraseKey_self s.cart pid hnd
  · intro s pid q pid' h hne
    rw [remove_item_present s pid q h]
    exact lookupQty_eraseKey_ne s.cart pid pid' hne
  · intro s pid h
    exact remove_item_absent s pid h

/-- C8 counterexample: the selected id 99 has no entry in the two-item cart,
and removing it is not a silent no-op — `del self.cart[99]` raises KeyError,
so an error is surfaced (the ledger itself stays unchanged). -/
theorem c8_counterexample :
    lookupQty cState2.cart 99 = none ∧
    (remove_item cState2 (some 99)).2 = Outcome.keyError ∧
    (remove_item cState2 (some 99)).2 ≠ Outcome.selectInfo ∧
    (remove_item cState2 (some 99)).2 ≠ Outcome.ok ∧
    (remove_item cState2 (some 99)).1 = cState2 :=
  ⟨by decide, by decide, by decide, by decide, by decide⟩

/-- C8 witness: on the two-item cart, removing the selected (present)
T-shirt entry deletes exactly it and the speaker entry survives, an empty
selection is a no-op, and a selected id with no entry (99) raises KeyError
with the state unchanged. -/
theorem c8_witness :
    ((cState2.cart.map Prod.fst).Nodup ∧ lookupQty cState2.cart 1 = some 3 ∧
      (5 : ℤ) ≠ 1 ∧ lookupQty cState2.cart 99 = none) ∧
    remove_item cState2 none = (cState2, Outcome.selectInfo) ∧
    (remove_item cState2 (some 1)).2 = Outcome.ok ∧
    lookupQty (remove_item cState2 (some 1)).1.cart 1 = none ∧
    lookupQty (remove_item cState2 (some 1)).1.cart 5 = lookupQty cState2.cart 5 ∧
    remove_item cState2 (some 99) = (cState2, Outcome.keyError) :=
  ⟨by decide,
   c8_remove_item.1 cState2,
   c8_remove_item.2.1 cState2 1 3 (by decide),
   c8_remove_item.2.2.1 cState2 1 3 (by decide) (by decide),
   c8_remove_item.2.2.2.1 cState2 1 3 5 (by decide) (by decide),
   c8_remove_item.2.2.2.2 cState2 99 (by decide)⟩

/-- C9: checkout on an empty Cart Ledger fails with the empty-cart message
and the state is returned unchanged (no Order Record); checkout on a
non-empty cart with any customer field blank after trimming fails with the
missing-fields warning and the state is returned unchanged (no Order Record,
cart untouched). -/
theorem c9_checkout_validation :
    (∀ (s : State) (n em ad : String) (ok : Bool), s.cart = [] →
      checkout s n em ad ok = (s, Outcome.emptyCartInfo)) ∧
    (∀ (s : State) (n em ad : String) (ok : Bool),
      (pyStrip n = "" ∨ pyStrip em = "" ∨ pyStrip ad = "") → s.cart ≠ [] →
      checkout s n em ad ok = (s, Outcome.missingFields)) := by
  constructor
  · intro s n em ad ok h
    exact checkout_empty_cart s n em ad ok h
  · intro s n em ad ok hb hc
    rw [checkout_nonempty s n em ad ok hc, place_order_blank s _ n em ad ok hb]

/-- C9 witness: checkout from the seeded start state (empty cart) fails with
the empty-cart message; checkout of the one-item cart with a whitespace-only
name fails with the missing-fields warning; both leave the state unchanged. -/
theorem c9_witness :
    (initState.cart = [] ∧
      (pyStrip blankStr = "" ∨ pyStrip custEmail = "" ∨ pyStrip custAddr = "") ∧
      cState1.cart ≠ []) ∧
    checkout initState custName custEmail custAddr true
      = (initState, Outcome.emptyCartInfo) ∧
    checkout cState1 blankStr custEmail custAddr true
      = (cState1, Outcome.missingFields) :=
  ⟨by decide,
   c9_checkout_validation.1 initState custName custEmail custAddr true (by decide),
   c9_checkout_validation.2 cState1 blankStr custEmail custAddr true
     (by decide) (by decide)⟩

theorem lookupQty_append (l l' : List (ℤ × ℤ)) (pid : ℤ)
    (h : lookupQty l pid = none) :
    lookupQty (l ++ l') pid = lookupQty l' pid := by
  induction l with
  | nil => rfl
  | cons e rest ih =>
    by_cases he : e.1 = pid
    · rw [lookupQty, if_pos he] at h
      cases h
    · rw [lookupQty, if_neg he] at h
      rw [List.cons_append, lookupQty, if_neg he, ih h]

theorem entryOKb_iff (products : List Product) (e : ℤ × ℤ) :
    entryOKb products e = true ↔
      0 < e.2 ∧ ∃ p, findProduct products e.1 = some p ∧ e.2 ≤ p.stock := by
  unfold entryOKb
  cases h : findProduct products e.1 with
  | none => simp [h]
  | some p => simp [h]

/-- C1 (amended): a successful checkout on a non-empty cart with non-blank
customer fields appends exactly one Order Record whose persisted total is
`float(subtotal)` — the IEEE-754 binary64 value nearest the ledger subtotal
at call time — decrements each purchased product's stock by exactly its cart
quantity, leaves every other product untouched, and leaves the Cart Ledger
empty afterward. -/
theorem c1_checkout_success (s : State) (n em ad : String)
    (hcart : s.cart ≠ []) (hn : pyStrip n ≠ "") (he : pyStrip em ≠ "")
    (ha : pyStrip ad ≠ "") (hnd : (s.cart.map Prod.fst).Nodup) :
    (checkout s n em ad true).2 = Outcome.ok ∧
    (checkout s n em ad true).1.cart = [] ∧
    (checkout s n em ad true).1.orders.map OrderRow.total
      = s.orders.map OrderRow.total ++ [pyFloat (subtotal s)] ∧
    (∀ pid q : ℤ, lookupQty s.cart pid = some q →
      findStock (checkout s n em ad true).1.products pid
        = (findStock s.products pid).map (fun st => st - q)) ∧
    (∀ pid : ℤ, lookupQty s.cart pid = none →
      findProduct (checkout s n em ad true).1.products pid
        = findProduct s.products pid) := by
  have hb : ¬ (pyStrip n = "" ∨ pyStrip em = "" ∨ pyStrip ad = "") := by
    push_neg
    exact ⟨hn, he, ha⟩
  rw [checkout_nonempty s n em ad true hcart, place_order_ok s (subtotal s) n em ad hb]
  refine ⟨rfl, rfl, ?_, ?_, ?_⟩
  · show List.map OrderRow.total (s.orders ++
        [OrderRow.mk (pyStrip n) (pyStrip em) (pyStrip ad) (pyFloat (subtotal s))
          (order_details s)])
      = List.map OrderRow.total s.orders ++ [pyFloat (subtotal s)]
    rw [List.map_append]
    rfl
  · intro pid q hq
    show findStock (dec_stocks s.products s.cart) pid = _
    unfold findStock
    rw [dec_stocks_lookup_some s.cart s.products pid q hnd hq]
    cases findProduct s.products pid with
    | none => rfl
    | some p => rfl
  · intro pid hq
    exact dec_stocks_lookup_none s.cart s.products pid hq

/-- C1 counterexample: for the cart holding three T-shirts the ledger
subtotal at call time is exactly $59.97, but the Order Record persisted by a
successful checkout carries the binary64 value nearest 59.97, which is not
equal to 5997/100 — so "total equals the ledger subtotal" fails as stated. -/
theorem c1_counterexample :
    subtotal cState1 = 5997 / 100 ∧
    (checkout cState1 custName custEmail custAddr true).1.orders.map OrderRow.total
      = [pyFloat (5997 / 100)] ∧
    pyFloat (5997 / 100) ≠ 5997 / 100 :=
  ⟨by decide, by decide, by decide⟩

/-- C1 witness: checking out the two-item cart succeeds, empties the cart,
appends one order totalled `float(105.22)`, and decrements the purchased
stocks 25 → 22 and 15 → 14 while an unpurchased product is untouched. -/
theorem c1_witness :
    (cState2.cart ≠ [] ∧ pyStrip custName ≠ "" ∧ pyStrip custEmail ≠ "" ∧
      pyStrip custAddr ≠ "" ∧ (cState2.cart.map Prod.fst).Nodup) ∧
    (checkout cState2 custName custEmail custAddr true).2 = Outcome.ok ∧
    (checkout cState2 custName custEmail custAddr true).1.cart = [] ∧
    (checkout cState2 custName custEmail custAddr true).1.orders.map OrderRow.total
      = cState2.orders.map OrderRow.total ++ [pyFloat (subtotal cState2)] ∧
    findStock (checkout cState2 custName custEmail custAddr true).1.products 1
      = some 22 ∧
    findStock (checkout cState2 custName custEmail custAddr true).1.products 5
      = some 14 ∧
    findProduct (checkout cState2 custName custEmail custAddr true).1.products 2
      = findProduct cState2.products 2 := by
  have h := c1_checkout_success cState2 custName custEmail custAddr
    (by decide) (by decide) (by decide) (by decide) (by decide)
  exact ⟨⟨by decide, by decide, by decide, by decide, by decide⟩,
    h.1, h.2.1, h.2.2.1,
    (h.2.2.2.1 1 3 (by decide)).trans (by decide),
    (h.2.2.2.1 5 1 (by decide)).trans (by decide),
    h.2.2.2.2 2 (by decide)⟩

/-- C10: the total a successful checkout persists is `float(subtotal)` — the
binary64 value nearest the 2-decimal Decimal subtotal — written into the
REAL `total` column; the conversion at the persistence boundary is not
exact: the binary64 image of the $105.22 subtotal differs from 10522/100. -/
theorem c10_persisted_total_is_float (s : State) (n em ad : String)
    (hcart : s.cart ≠ []) (hn : pyStrip n ≠ "") (he : pyStrip em ≠ "")
    (ha : pyStrip ad ≠ "") :
    (checkout s n em ad true).1.orders
      = s.orders ++ [⟨pyStrip n, pyStrip em, pyStrip ad, pyFloat (subtotal s),
          order_details s⟩] ∧
    pyFloat (10522 / 100) ≠ 10522 / 100 := by
  have hb : ¬ (pyStrip n = "" ∨ pyStrip em = "" ∨ pyStrip ad = "") := by
    push_neg
    exact ⟨hn, he, ha⟩
  rw [checkout_nonempty s n em ad true hcart, place_order_ok s (subtotal s) n em ad hb]
  exact ⟨rfl, by decide⟩

/-- C10 witness: the checkout of the two-item cart stores exactly one row
whose total field is `float(Decimal("105.22"))`, an inexact image of the
subtotal. -/
theorem c10_witness :
    (cState2.cart ≠ [] ∧ pyStrip custName ≠ "" ∧ pyStrip custEmail ≠ "" ∧
      pyStrip custAddr ≠ "") ∧
    ((checkout cState2 custName custEmail custAddr true).1.orders
      = cState2.orders ++ [⟨pyStrip custName, pyStrip custEmail, pyStrip custAddr,
          pyFloat (subtotal cState2), order_details cState2⟩] ∧
      pyFloat (10522 / 100) ≠ 10522 / 100) :=
  ⟨by decide,
   c10_persisted_total_is_float cState2 custName custEmail custAddr
     (by decide) (by decide) (by decide) (by decide)⟩

/-! ### Unfolding lemmas for the cart mutations -/

theorem add_to_cart_nonpos (s : State) (p : Product) (q : ℤ) (h : q ≤ 0) :
    add_to_cart s p q = (s, Outcome.silentReturn) := by
  unfold add_to_cart
  rw [if_pos h]

theorem add_to_cart_over (s : State) (p : Product) (q : ℤ)
    (h0 : ¬ q ≤ 0) (h1 : p.stock < q) :
    add_to_cart s p q = (s, Outcome.stockWarning) := by
  unfold add_to_cart
  rw [if_neg h0, if_pos h1]

theorem add_to_cart_new (s : State) (p : Product) (q : ℤ)
    (h0 : ¬ q ≤ 0) (h1 : ¬ p.stock < q) (hlk : lookupQty s.cart p.id = none) :
    add_to_cart s p q = ({ s with cart := s.cart ++ [(p.id, q)] }, Outcome.ok) := by
  unfold add_to_cart
  rw [if_neg h0, if_neg h1, hlk]

theorem add_to_cart_incr (s : State) (p : Product) (q oldq : ℤ)
    (h0 : ¬ q ≤ 0) (h1 : ¬ p.stock < q) (hlk : lookupQty s.cart p.id = some oldq)
    (h2 : ¬ oldq + q > p.stock) :
    add_to_cart s p q
      = ({ s with cart := setQty s.cart p.id (oldq + q) }, Outcome.ok) := by
  unfold add_to_cart
  rw [if_neg h0, if_neg h1, hlk]
  exact if_neg h2

theorem add_to_cart_incr_over (s : State) (p : Product) (q oldq : ℤ)
    (h0 : ¬ q ≤ 0) (h1 : ¬ p.stock < q) (hlk : lookupQty s.cart p.id = some oldq)
    (h2 : oldq + q > p.stock) :
    add_to_cart s p q = (s, Outcome.stockWarning) := by
  unfold add_to_cart
  rw [if_neg h0, if_neg h1, hlk]
  exact if_pos h2

theorem update_qty_missing (s : State) (pid newq : ℤ)
    (h : lookupQty s.cart pid = none) :
    update_qty s (some pid) newq = (s, Outcome.keyError) := by
  simp only [update_qty, h]

theorem update_qty_noprod (s : State) (pid newq oldq : ℤ)
    (hlk : lookupQty s.cart pid = some oldq)
    (hfp : findProduct s.products pid = none) :
    update_qty s (some pid) newq = (s, Outcome.keyError) := by
  simp only [update_qty, hlk, hfp]

theorem update_qty_over (s : State) (pid newq oldq : ℤ) (prod : Product)
    (hlk : lookupQty s.cart pid = some oldq)
    (hfp : findProduct s.products pid = some prod)
    (h : newq > prod.stock) :
    update_qty s (some pid) newq = (s, Outcome.stockWarning) := by
  simp only [update_qty, hlk, hfp]
  exact if_pos h

theorem update_qty_set (s : State) (pid newq oldq : ℤ) (prod : Product)
    (hlk : lookupQty s.cart pid = some oldq)
    (hfp : findProduct s.products pid = some prod)
    (h : ¬ newq > prod.stock) :
    update_qty s (some pid) newq
      = ({ s with cart := setQty s.cart pid newq }, Outcome.ok) := by
  simp only [update_qty, hlk, hfp]
  exact if_neg h

/-- C7 (amended): a quantity exceeding the available stock is rejected with a
stock warning and no mutation by both addItem and setQuantity (the prior
entry is left intact); addItem rejects a non-positive quantity before any
mutation but silently — no error is surfaced; and setQuantity does not
validate non-positive quantities at all: any quantity not exceeding the
stock, including zero and negative ones, is accepted and mutates the entry. -/
theorem c7_quantity_validation :
    (∀ (s : State) (p : Product) (q : ℤ), q ≤ 0 →
      add_to_cart s p q = (s, Outcome.silentReturn)) ∧
    (∀ (s : State) (p : Product) (q : ℤ), 0 < q → p.stock < q →
      add_to_cart s p q = (s, Outcome.stockWarning)) ∧
    (∀ (s : State) (pid newq oldq : ℤ) (prod : Product),
      lookupQty s.cart pid = some oldq → findProduct s.products pid = some prod →
      prod.stock < newq →
      update_qty s (some pid) newq = (s, Outcome.stockWarning)) ∧
    (∀ (s : State) (pid newq oldq : ℤ) (prod : Product),
      lookupQty s.cart pid = some oldq → findProduct s.products pid = some prod →
      newq ≤ prod.stock →
      update_qty s (some pid) newq
        = ({ s with cart := setQty s.cart pid newq }, Outcome.ok)) :=
  ⟨fun s p q h => add_to_cart_nonpos s p q h,
   fun s p q h0 h1 => add_to_cart_over s p q (not_le.mpr h0) h1,
   fun s pid newq oldq prod hlk hfp h => update_qty_over s pid newq oldq prod hlk hfp h,
   fun s pid newq oldq prod hlk hfp h =>
     update_qty_set s pid newq oldq prod hlk hfp (not_lt.mpr h)⟩

/-- C7 counterexample: setQuantity with quantity 0 on the cart entry of
quantity 3 does not fail with InvalidQuantity and does not leave the prior
quantity intact — it reports success and sets the entry's quantity to 0. -/
theorem c7_counterexample :
    (update_qty cState1 (some 1) 0).2 = Outcome.ok ∧
    lookupQty (update_qty cState1 (some 1) 0).1.cart 1 = some 0 :=
  ⟨by decide, by decide⟩

/-- C7 witness: concrete rejected and accepted quantity updates on the
one-item cart: a silent ignore of quantity 0 on add, stock warnings for
excessive quantities on add and update, and an accepted in-stock update. -/
theorem c7_witness :
    ((0 : ℤ) ≤ 0 ∧ (0 : ℤ) < 26 ∧ product1.stock < 26 ∧
      lookupQty cState1.cart 1 = some 3 ∧
      findProduct cState1.products 1 = some product1 ∧
      product1.stock < 99 ∧ (5 : ℤ) ≤ product1.stock) ∧
    add_to_cart cState1 product1 0 = (cState1, Outcome.silentReturn) ∧
    add_to_cart cState1 product1 26 = (cState1, Outcome.stockWarning) ∧
    update_qty cState1 (some 1) 99 = (cState1, Outcome.stockWarning) ∧
    update_qty cState1 (some 1) 5
      = ({ cState1 with cart := setQty cState1.cart 1 5 }, Outcome.ok) :=
  ⟨by decide,
   c7_quantity_validation.1 cState1 product1 0 (by decide),
   c7_quantity_validation.2.1 cState1 product1 26 (by decide) (by decide),
   c7_quantity_validation.2.2.1 cState1 1 99 3 product1 (by decide) (by decide) (by decide),
   c7_quantity_validation.2.2.2 cState1 1 5 3 product1 (by decide) (by decide) (by decide)⟩

/-- C4: adding a product with no existing entry and 0 < q1 ≤ stock succeeds
and creates the entry with quantity q1; a second add of q2 > 0 with
q1+q2 ≤ stock succeeds and merges into a single entry of quantity q1+q2
(exactly one entry for the product id); if instead q1+q2 > stock the second
add fails with the stock warning and the state — in particular the entry at
quantity q1 — is exactly unchanged. -/
theorem c4_add_twice (s : State) (p : Product) (q1 q2v : ℤ)
    (habsent : lookupQty s.cart p.id = none)
    (h1 : 0 < q1) (h1s : q1 ≤ p.stock) :
    add_to_cart s p q1 = ({ s with cart := s.cart ++ [(p.id, q1)] }, Outcome.ok) ∧
    lookupQty (s.cart ++ [(p.id, q1)]) p.id = some q1 ∧
    (0 < q2v → q1 + q2v ≤ p.stock →
      add_to_cart ({ s with cart := s.cart ++ [(p.id, q1)] }) p q2v
        = ({ s with cart := setQty (s.cart ++ [(p.id, q1)]) p.id (q1 + q2v) },
           Outcome.ok) ∧
      lookupQty (setQty (s.cart ++ [(p.id, q1)]) p.id (q1 + q2v)) p.id
        = some (q1 + q2v) ∧
      ((setQty (s.cart ++ [(p.id, q1)]) p.id (q1 + q2v)).map Prod.fst).count p.id
        = 1) ∧
    (0 < q2v → p.stock < q1 + q2v →
      add_to_cart ({ s with cart := s.cart ++ [(p.id, q1)] }) p q2v
        = ({ s with cart := s.cart ++ [(p.id, q1)] }, Outcome.stockWarning)) := by
  have hlk1 : lookupQty (s.cart ++ [(p.id, q1)]) p.id = some q1 := by
    rw [lookupQty_append s.cart _ p.id habsent, lookupQty, if_pos rfl]
  refine ⟨add_to_cart_new s p q1 (not_le.mpr h1) (not_lt.mpr h1s) habsent, hlk1,
    ?_, ?_⟩
  · intro hq2 hle
    have hq2s : ¬ p.stock < q2v := not_lt.mpr (by omega)
    refine ⟨add_to_cart_incr _ p q2v q1 (not_le.mpr hq2) hq2s hlk1
      (not_lt.mpr hle), lookupQty_setQty_self _ p.id (q1 + q2v) q1 hlk1, ?_⟩
    rw [setQty_map_fst, List.map_append, List.count_append,
      List.count_eq_zero.2 ((lookupQty_eq_none_iff s.cart p.id).1 habsent)]
    simp
  · intro hq2 hover
    by_cases hq2s : p.stock < q2v
    · exact add_to_cart_over _ p q2v (not_le.mpr hq2) hq2s
    · exact add_to_cart_incr_over _ p q2v q1 (not_le.mpr hq2) hq2s hlk1 hover

/-- C4 witness: from the seeded start state, adding 2 T-shirts then 3 more
merges into a single entry of 5; adding 24 more instead (2+24 > 25) fails
with the stock warning and the entry stays at 2. -/
theorem c4_witness :
    (lookupQty initState.cart product1.id = none ∧ (0 : ℤ) < 2 ∧
      (2 : ℤ) ≤ product1.stock ∧ (0 : ℤ) < 3 ∧
      (2 : ℤ) + 3 ≤ product1.stock ∧ (0 : ℤ) < 24 ∧
      product1.stock < 2 + 24) ∧
    (add_to_cart initState product1 2
      = ({ initState with cart := initState.cart ++ [(product1.id, 2)] },
         Outcome.ok) ∧
     lookupQty (initState.cart ++ [(product1.id, 2)]) product1.id = some 2) ∧
    (add_to_cart ({ initState with cart := initState.cart ++ [(product1.id, 2)] })
        product1 3
      = ({ initState with
            cart := setQty (initState.cart ++ [(product1.id, 2)]) product1.id (2 + 3) },
         Outcome.ok) ∧
     lookupQty (setQty (initState.cart ++ [(product1.id, 2)]) product1.id (2 + 3))
        product1.id = some (2 + 3) ∧
     ((setQty (initState.cart ++ [(product1.id, 2)]) product1.id (2 + 3)).map
        Prod.fst).count product1.id = 1) ∧
    add_to_cart ({ initState with cart := initState.cart ++ [(product1.id, 2)] })
        product1 24
      = ({ initState with cart := initState.cart ++ [(product1.id, 2)] },
         Outcome.stockWarning) := by
  have h3 := c4_add_twice initState product1 2 3 (by decide) (by decide) (by decide)
  have h24 := c4_add_twice initState product1 2 24 (by decide) (by decide) (by decide)
  exact ⟨by decide, ⟨h3.1, h3.2.1⟩, h3.2.2.1 (by decide) (by decide),
    h24.2.2.2 (by decide) (by decide)⟩

/-- C3 (amended): addItem (called, as in the GUI, with a product drawn from
the catalog), removeItem and checkout preserve the Cart Ledger invariant —
at most one entry per product id, every quantity positive and not above the
referenced product's current stock — and setQuantity preserves it when the
new quantity is positive.  The unamended claim fails because setQuantity
does not validate non-positive quantities. -/
theorem c3_ledger_invariant_preserved :
    (∀ (s : State) (p : Product) (q : ℤ), findProduct s.products p.id = some p →
      ledgerInv s → ledgerInv (add_to_cart s p q).1) ∧
    (∀ (s : State) (sel : Option ℤ) (newq : ℤ), 0 < newq →
      ledgerInv s → ledgerInv (update_qty s sel newq).1) ∧
    (∀ (s : State) (sel : Option ℤ), ledgerInv s → ledgerInv (remove_item s sel).1) ∧
    (∀ (s : State) (n em ad : String) (ok : Bool),
      ledgerInv s → ledgerInv (checkout s n em ad ok).1) := by
  refine ⟨?_, ?_, ?_, ?_⟩
  · -- addItem
    intro s p q hp hinv
    by_cases h0 : q ≤ 0
    · rw [add_to_cart_nonpos s p q h0]
      exact hinv
    · by_cases h1 : p.stock < q
      · rw [add_to_cart_over s p q h0 h1]
        exact hinv
      · cases hlk : lookupQty s.cart p.id with
        | none =>
          rw [add_to_cart_new s p q h0 h1 hlk]
          constructor
          · show ((s.cart ++ [(p.id, q)]).map Prod.fst).Nodup
            rw [List.map_append]
            refine List.Nodup.append hinv.1 (List.nodup_singleton _) ?_
            intro a ha hb
            rw [List.map_singleton, List.mem_singleton] at hb
            subst hb
            exact (lookupQty_eq_none_iff s.cart p.id).1 hlk ha
          · intro e he
            rcases List.mem_append.1 he with he2 | he2
            · exact hinv.2 e he2
            · rw [List.mem_singleton] at he2
              subst he2
              rw [entryOKb_iff]
              exact ⟨by omega, p, hp, by omega⟩
        | some oldq =>
          by_cases h2 : oldq + q > p.stock
          · rw [add_to_cart_incr_over s p q oldq h0 h1 hlk h2]
            exact hinv
          · rw [add_to_cart_incr s p q oldq h0 h1 hlk h2]
            have holdpos : 0 < oldq := by
              have := hinv.2 _ (lookupQty_some_mem s.cart p.id oldq hlk)
              exact ((entryOKb_iff s.products (p.id, oldq)).1 this).1
            constructor
            · show ((setQty s.cart p.id (oldq + q)).map Prod.fst).Nodup
              rw [setQty_map_fst]
              exact hinv.1
            · intro e he
              rcases mem_setQty s.cart p.id (oldq + q) e he with he2 | he2
              · exact hinv.2 e he2
              · subst he2
                rw [entryOKb_iff]
                exact ⟨by omega, p, hp, by omega⟩
  · -- setQuantity with a positive quantity
    intro s sel newq hpos hinv
    cases sel with
    | none => exact hinv
    | some pid =>
      cases hlk : lookupQty s.cart pid with
      | none =>
        rw [update_qty_missing s pid newq hlk]
        exact hinv
      | some oldq =>
        cases hfp : findProduct s.products pid with
        | none =>
          rw [update_qty_noprod s pid newq oldq hlk hfp]
          exact hinv
        | some prod =>
          by_cases hq : newq > prod.stock
          · rw [update_qty_over s pid newq oldq prod hlk hfp hq]
            exact hinv
          · rw [update_qty_set s pid newq oldq prod hlk hfp hq]
            constructor
            · show ((setQty s.cart pid newq).map Prod.fst).Nodup
              rw [setQty_map_fst]
              exact hinv.1
            · intro e he
              rcases mem_setQty s.cart pid newq e he with he2 | he2
              · exact hinv.2 e he2
              · subst he2
                rw [entryOKb_iff]
                exact ⟨hpos, prod, hfp, not_lt.1 hq⟩
  · -- removeItem
    intro s sel hinv
    cases sel with
    | none => exact hinv
    | some pid =>
      cases hlk : lookupQty s.cart pid with
      | none =>
        rw [remove_item_absent s pid hlk]
        exact hinv
      | some q =>
        rw [remove_item_present s pid q hlk]
        constructor
        · show ((eraseKey s.cart pid).map Prod.fst).Nodup
          exact List.Nodup.sublist ((eraseKey_sublist s.cart pid).map Prod.fst) hinv.1
        · intro e he
          exact hinv.2 e ((eraseKey_sublist s.cart pid).subset he)
  · -- checkout
    intro s n em ad ok hinv
    by_cases hc : s.cart = []
    · rw [checkout_empty_cart s n em ad ok hc]
      exact hinv
    · rw [checkout_nonempty s n em ad ok hc]
      by_cases hb : pyStrip n = "" ∨ pyStrip em = "" ∨ pyStrip ad = ""
      · rw [place_order_blank s _ n em ad ok hb]
        exact hinv
      · cases ok with
        | false =>
          rw [place_order_fail s _ n em ad hb]
          exact hinv
        | true =>
          rw [place_order_ok s _ n em ad hb]
          exact ⟨List.nodup_nil, fun e he => absurd he (List.not_mem_nil e)⟩

/-- C3 counterexample: the reachable one-item cart satisfies the ledger
invariant, but setQuantity with quantity 0 — typable into the quantity
spinbox — produces a state that violates it (an entry of quantity 0). -/
theorem c3_counterexample :
    ledgerInv cState1 ∧ ¬ ledgerInv (update_qty cState1 (some 1) 0).1 :=
  ⟨by decide, by decide⟩

/-- C3 witness: the ledger invariant survives a concrete add, a positive
quantity update, a removal, and a full checkout from the one-item cart. -/
theorem c3_witness :
    (findProduct cState1.products product1.id = some product1 ∧
      ledgerInv cState1 ∧ (0 : ℤ) < 2) ∧
    ledgerInv (add_to_cart cState1 product1 2).1 ∧
    ledgerInv (update_qty cState1 (some 1) 2).1 ∧
    ledgerInv (remove_item cState1 (some 1)).1 ∧
    ledgerInv (checkout cState1 custName custEmail custAddr true).1 :=
  ⟨⟨by decide, by decide, by decide⟩,
   c3_ledger_invariant_preserved.1 cState1 product1 2 (by decide) (by decide),
   c3_ledger_invariant_preserved.2.1 cState1 (some 1) 2 (by decide) (by decide),
   c3_ledger_invariant_preserved.2.2.1 cState1 (some 1) (by decide),
   c3_ledger_invariant_preserved.2.2.2 cState1 custName custEmail custAddr true
     (by decide)⟩

end Store
